import Mathlib

/-!
Verification of the timesheet API proxy's credential-resolution and
geofence-validation core against its natural-language specification.

The JavaScript source (src/timesheet-server.js) contains several
concatenated variants of the same server.  The definitions below are a
shallow embedding of the functions the claims are about:

* `calculateDistance` — the Haversine distance (identical in all variants);
* `checkLocations` / `validateLocationV1` — the region-loop validator
  (lines 432-491), with the configured region list made an explicit
  parameter (it is built from environment configuration in the source);
* `validateLocation` — the variant with the `ALLOW_DYNAMIC_LOCATION` flag
  and the empty-region-list check (lines 3156-3261);
* `extractCredentialsSimple` — the credential extractor without cookie
  fallback (lines 32-38);
* `extractCredentials` — the extractor with the cookie fallback
  (lines 1094-1123, identical at 2825);
* `punchInV1`, `punchInV4` — the local (pre-upstream) phase of the two
  punch-in handlers (lines 665-762 and 3522-3580);
* `punchInUpstream` — the upstream-response policy of the first punch-in
  handler (lines 767-816).

JavaScript values flowing through the credential pipeline are modelled by
the `Json` type together with JavaScript truthiness; `Option Json` models
a possibly-`undefined` value.  JavaScript numbers are modelled as exact
rationals and coordinates as real numbers; IEEE-754 rounding, `NaN`, and
numeric-string coercion are outside the model (no claim depends on them).
-/

/-- A JavaScript/JSON value (as produced by `express.json()` or
`JSON.parse`).  Numbers are modelled as exact rationals. -/
inductive Json where
  | null : Json
  | bool (b : Bool) : Json
  | num (q : ℚ) : Json
  | str (s : String) : Json
  | arr (elems : List Json) : Json
  | obj (fields : List (String × Json)) : Json

/-- JavaScript truthiness of a defined value: `null`, `false`, `0` and the
empty string are falsy; arrays and objects are always truthy. -/
def jsTruthy : Json → Bool
  | .null => false
  | .bool b => b
  | .num q => decide (q ≠ 0)
  | .str s => decide (s ≠ "")
  | .arr _ => true
  | .obj _ => true

/-- Truthiness of a possibly-`undefined` value (`none` = `undefined`). -/
def jsTruthyOpt : Option Json → Bool
  | none => false
  | some v => jsTruthy v

/-- The JavaScript `a || b` operator on possibly-`undefined` values:
returns `a` when truthy, otherwise `b` (even when `b` is falsy). -/
def jsOr (a b : Option Json) : Option Json :=
  match a with
  | some v => if jsTruthy v then some v else b
  | none => b

/-- Property access `o.k` on a defined JavaScript value: only objects have
the fields we look up; a duplicate key keeps the last assignment, as in a
JavaScript object literal built by repeated assignment. -/
def Json.getField : Json → String → Option Json
  | .obj fields, k => (fields.reverse.find? (fun p => p.1 == k)).map (·.2)
  | _, _ => none

/-- Optional-chaining access `o?.k`: `undefined` and `null` receivers give
`undefined`; other non-objects have no such field. -/
def jsOptField (o : Option Json) (k : String) : Option Json :=
  match o with
  | none => none
  | some .null => none
  | some j => j.getField k

/-- If `cs` starts with the pattern, return the remainder after it. -/
def dropSeq : List Char → List Char → Option (List Char)
  | [], cs => some cs
  | _ :: _, [] => none
  | p :: ps, c :: cs => if c = p then dropSeq ps cs else none

/-- Remove the first occurrence of a (non-empty) pattern from a character
sequence, leaving the sequence unchanged when the pattern never occurs. -/
def replaceFirstAux (pat : List Char) : List Char → List Char
  | [] => []
  | c :: cs =>
    match dropSeq pat (c :: cs) with
    | some rest => rest
    | none => c :: replaceFirstAux pat cs

/-- JavaScript `s.replace(pat, "")` with a string pattern: removes the
first occurrence of `pat` anywhere in `s` (not only as a prefix). -/
def jsReplaceFirst (s pat : String) : String :=
  String.mk (replaceFirstAux pat.data s.data)

/-- Split a character sequence on a separator character (the semantics of
JavaScript `split` with a one-character separator). -/
def splitOnChar (sep : Char) : List Char → List (List Char)
  | [] => [[]]
  | c :: cs =>
    let r := splitOnChar sep cs
    if c = sep then [] :: r
    else
      match r with
      | [] => [[c]]
      | g :: gs => (c :: g) :: gs

/-- Drop leading whitespace characters. -/
def dropLeadingWs : List Char → List Char
  | c :: cs => if c.isWhitespace then dropLeadingWs cs else c :: cs
  | [] => []

/-- JavaScript `trim`: drop leading and trailing whitespace. -/
def trimList (cs : List Char) : List Char :=
  (dropLeadingWs (dropLeadingWs cs).reverse).reverse

/-- An inbound HTTP request as seen by the credential extractor and the
punch-in handlers: the relevant headers, the `id` path parameter and the
parsed JSON body (`none` = absent). -/
structure Request where
  authorization : Option String
  cookie : Option String
  xUserId : Option String
  xUserRole : Option String
  paramsId : Option String
  body : Option Json

/-- The credentials value returned by `extractCredentials`. -/
structure Credentials where
  token : Option Json
  userId : Option Json
  role : Option Json

/-- Embedding of the cookie-less `extractCredentials` (source lines 32-38):
`token = req.headers.authorization?.replace('Bearer ', '') || req.body?.token`,
`userId = req.params?.id || req.body?.userId || req.headers['x-user-id']`,
`role = req.headers['x-user-role'] || req.body?.role`. -/
def extractCredentialsSimple (req : Request) : Credentials :=
  { token := jsOr (req.authorization.map (fun a => .str (jsReplaceFirst a "Bearer ")))
      (jsOptField req.body "token")
    userId := jsOr (req.paramsId.map .str)
      (jsOr (jsOptField req.body "userId") (req.xUserId.map .str))
    role := jsOr (req.xUserRole.map .str) (jsOptField req.body "role") }

/-! ## Geofence validator -/

/-- A configured circular region (source: the entries of the `locations`
array built from `LOCATION_CONFIG` / environment variables). -/
structure GeoRegion where
  name : String
  latitude : ℝ
  longitude : ℝ
  radius : ℝ

/-- The validator's result object: `isValid: true` with the matched
location, or `isValid: false` with the closest location.  The reported
distance is the `Math.round`ed integer. -/
inductive ValidationResult where
  | admitted (matchedLocation : String) (distance : ℤ) (allowedRadius : ℝ)
  | rejected (closestLocation : String) (distance : ℤ) (allowedRadius : ℝ)

/-- The `isValid` field of the result. -/
def ValidationResult.isValid : ValidationResult → Bool
  | .admitted _ _ _ => true
  | .rejected _ _ _ => false

/-- Two-argument arctangent, the semantics of `Math.atan2 y x`. -/
noncomputable def atan2 (y x : ℝ) : ℝ :=
  if 0 < x then Real.arctan (y / x)
  else if x < 0 ∧ 0 ≤ y then Real.arctan (y / x) + Real.pi
  else if x < 0 ∧ y < 0 then Real.arctan (y / x) - Real.pi
  else if x = 0 ∧ 0 < y then Real.pi / 2
  else if x = 0 ∧ y < 0 then -(Real.pi / 2)
  else 0

/-- `Math.round x` in JavaScript: the floor of `x + 1/2`. -/
noncomputable def jsRound (x : ℝ) : ℤ := ⌊x + 1 / 2⌋

/-- Embedding of `calculateDistance` (source lines 418-429, identical in
every variant): the Haversine great-circle distance in meters. -/
noncomputable def calculateDistance (lat1 lon1 lat2 lon2 : ℝ) : ℝ :=
  let R : ℝ := 6371000
  let dLat : ℝ := (lat2 - lat1) * Real.pi / 180
  let dLon : ℝ := (lon2 - lon1) * Real.pi / 180
  let a : ℝ :=
    Real.sin (dLat / 2) * Real.sin (dLat / 2) +
      Real.cos (lat1 * Real.pi / 180) * Real.cos (lat2 * Real.pi / 180) *
        Real.sin (dLon / 2) * Real.sin (dLon / 2)
  let c : ℝ := 2 * atan2 (Real.sqrt a) (Real.sqrt (1 - a))
  R * c

/-- The first `for` loop of `validateLocation` (source lines 448-464 and
3214-3230): return the first region whose distance from the point is at
most its radius. -/
noncomputable def firstMatchLoop (lat lon : ℝ) : List GeoRegion → Option GeoRegion
  | [] => none
  | l :: ls =>
    if calculateDistance lat lon l.latitude l.longitude ≤ l.radius then some l
    else firstMatchLoop lat lon ls

/-- The second `for` loop of `validateLocation` (source lines 466-482 and
3232-3248): running minimum-distance region.  The accumulator `none`
models the initial `closestLocation = null`, `minDistance = Infinity`
state (a finite distance always beats `Infinity`); replacement happens
only on a strictly smaller distance. -/
noncomputable def closestLoop (lat lon : ℝ) :
    List GeoRegion → Option (GeoRegion × ℝ) → Option (GeoRegion × ℝ)
  | [], acc => acc
  | l :: ls, acc =>
    let d := calculateDistance lat lon l.latitude l.longitude
    match acc with
    | none => closestLoop lat lon ls (some (l, d))
    | some (c, m) =>
      if d < m then closestLoop lat lon ls (some (l, d))
      else closestLoop lat lon ls (some (c, m))

/-- The region-checking part shared by the validator variants (source
lines 448-491): first-match admission, then closest-region rejection.
`fallbackRadius` is the `closestLocation?.radius || …` fallback (the
literal `100` in the first variant, `DEFAULT_RADIUS` in the flag variant);
the final fallback branch is reachable only on an empty region list, where
the source would report `Math.round(Infinity)` (the distance placeholder
`0` is never observed by any theorem below). -/
noncomputable def checkLocations (fallbackRadius : ℝ) (locations : List GeoRegion)
    (lat lon : ℝ) : ValidationResult :=
  match firstMatchLoop lat lon locations with
  | some l =>
    .admitted l.name (jsRound (calculateDistance lat lon l.latitude l.longitude)) l.radius
  | none =>
    match closestLoop lat lon locations none with
    | some (c, m) => .rejected c.name (jsRound m) c.radius
    | none => .rejected "Unknown" 0 fallbackRadius

/-- Embedding of the first variant's `validateLocation` (source lines
432-491); its region list is the configuration-derived `locations`
array, made an explicit parameter. -/
noncomputable def validateLocationV1 (locations : List GeoRegion) (lat lon : ℝ) :
    ValidationResult :=
  checkLocations 100 locations lat lon

/-- Embedding of the flag variant's `validateLocation` (source lines
3156-3261): admit unconditionally in dynamic mode, admit when no regions
are configured, otherwise run the region loops. -/
noncomputable def validateLocation (allowDynamic : Bool) (defaultRadius : ℝ)
    (locations : List GeoRegion) (lat lon : ℝ) : ValidationResult :=
  if allowDynamic then .admitted "Dynamic Location" 0 defaultRadius
  else if locations.length = 0 then
    .admitted "No Office Locations Configured" 0 defaultRadius
  else checkLocations defaultRadius locations lat lon

/-- Embedding of `LOCATION_CONFIG.ALLOW_DYNAMIC_LOCATION` (source line
3124): `process.env.ALLOW_DYNAMIC_LOCATION === "true" || true`, as a
function of the raw environment value (`none` = unset). -/
def allowDynamicLocationFlag (env : Option String) : Bool :=
  (env == some "true") || true

/-! ## Spec-side notions used to state the claims -/

/-- A point lies within a region (boundary inclusive), measured with the
program's distance function. -/
def WithinRegion (lat lon : ℝ) (r : GeoRegion) : Prop :=
  calculateDistance lat lon r.latitude r.longitude ≤ r.radius

/-- Distance from a point to a region's center. -/
noncomputable def distTo (lat lon : ℝ) (r : GeoRegion) : ℝ :=
  calculateDistance lat lon r.latitude r.longitude

/-- The Haversine great-circle distance exactly as the specification
writes it: `a = sin²(Δlat/2) + cos(lat1)·cos(lat2)·sin²(Δlon/2)`,
`d = 2·R·atan2(√a, √(1−a))`, `R = 6371000`, all angles converted from
degrees to radians before use. -/
noncomputable def haversineSpec (lat1 lon1 lat2 lon2 : ℝ) : ℝ :=
  let rad : ℝ → ℝ := fun x => x * Real.pi / 180
  let a : ℝ :=
    Real.sin ((rad lat2 - rad lat1) / 2) ^ 2 +
      Real.cos (rad lat1) * Real.cos (rad lat2) *
        Real.sin ((rad lon2 - rad lon1) / 2) ^ 2
  2 * 6371000 * atan2 (Real.sqrt a) (Real.sqrt (1 - a))

/-! ## Basic computation lemmas -/

theorem jsRound_zero : jsRound 0 = 0 := by
  unfold jsRound
  norm_num

theorem atan2_zero_one : atan2 0 1 = 0 := by
  unfold atan2
  rw [if_pos one_pos]
  simp

theorem calculateDistance_self (lat lon : ℝ) : calculateDistance lat lon lat lon = 0 := by
  unfold calculateDistance
  have h1 : (lat - lat) * Real.pi / 180 = 0 := by ring
  have h2 : (lon - lon) * Real.pi / 180 = 0 := by ring
  rw [h1, h2]
  norm_num [atan2_zero_one]

/-! ## C6 and C9: degenerate admission -/

/-- C6: for every coordinate pair, if the configured region list is empty
or the dynamic-location flag is enabled, `validateLocation` returns an
admitted result with a synthetic marker region name and distance 0. -/
theorem validateLocation_degenerate (flag : Bool) (defaultRadius : ℝ)
    (locations : List GeoRegion) (lat lon : ℝ)
    (h : flag = true ∨ locations = []) :
    validateLocation flag defaultRadius locations lat lon =
        .admitted "Dynamic Location" 0 defaultRadius ∨
      validateLocation flag defaultRadius locations lat lon =
        .admitted "No Office Locations Configured" 0 defaultRadius := by
  unfold validateLocation
  rcases h with h | h
  · subst h
    left
    simp
  · subst h
    cases flag
    · right
      simp
    · left
      simp

/-- Witness for `validateLocation_degenerate` at a concrete input. -/
theorem validateLocation_degenerate_witness :
    (true = true ∨ ([] : List GeoRegion) = []) ∧
      (validateLocation true 100 [] 5 7 = .admitted "Dynamic Location" 0 100 ∨
        validateLocation true 100 [] 5 7 =
          .admitted "No Office Locations Configured" 0 100) :=
  ⟨Or.inl rfl, validateLocation_degenerate true 100 [] 5 7 (Or.inl rfl)⟩

/-- C9: the `ALLOW_DYNAMIC_LOCATION` flag evaluates to `true` for every
environment value (including unset and `"false"`), so the flag variant's
`validateLocation` admits every coordinate pair with matched region
`"Dynamic Location"` and distance 0; the region-checking and rejection
branches are never reached. -/
theorem allowDynamicLocation_always_admits :
    (∀ env : Option String, allowDynamicLocationFlag env = true) ∧
      ∀ (env : Option String) (defaultRadius : ℝ) (locations : List GeoRegion)
        (lat lon : ℝ),
        validateLocation (allowDynamicLocationFlag env) defaultRadius locations lat lon =
          .admitted "Dynamic Location" 0 defaultRadius := by
  constructor
  · intro env
    simp [allowDynamicLocationFlag]
  · intro env dR locs lat lon
    simp [allowDynamicLocationFlag, validateLocation]

/-! ## C3: the distance metric -/

/-- C3: the program's `calculateDistance` equals the Haversine formula as
written in the specification (Earth radius 6371000 m, degree-to-radian
conversion), and the validator compares the un-rounded distance against
the radius while reporting only the rounded distance. -/
theorem calculateDistance_is_haversine :
    (∀ lat1 lon1 lat2 lon2 : ℝ,
        calculateDistance lat1 lon1 lat2 lon2 = haversineSpec lat1 lon1 lat2 lon2) ∧
      ∀ (defaultRadius lat lon : ℝ) (r : GeoRegion),
        validateLocation false defaultRadius [r] lat lon =
          if calculateDistance lat lon r.latitude r.longitude ≤ r.radius then
            .admitted r.name (jsRound (calculateDistance lat lon r.latitude r.longitude))
              r.radius
          else
            .rejected r.name (jsRound (calculateDistance lat lon r.latitude r.longitude))
              r.radius := by
  constructor
  · intro lat1 lon1 lat2 lon2
    simp only [calculateDistance, haversineSpec]
    have hlat : (lat2 - lat1) * Real.pi / 180 =
        lat2 * Real.pi / 180 - lat1 * Real.pi / 180 := by ring
    have hlon : (lon2 - lon1) * Real.pi / 180 =
        lon2 * Real.pi / 180 - lon1 * Real.pi / 180 := by ring
    rw [hlat, hlon]
    have ha : ∀ s c1 c2 t : ℝ, s * s + c1 * c2 * t * t = s ^ 2 + c1 * c2 * t ^ 2 := by
      intro s c1 c2 t
      ring
    rw [ha]
    ring
  · intro dR lat lon r
    have hv : validateLocation false dR [r] lat lon = checkLocations dR [r] lat lon := by
      unfold validateLocation
      norm_num
    rw [hv]
    by_cases h : calculateDistance lat lon r.latitude r.longitude ≤ r.radius
    · rw [if_pos h]
      simp [checkLocations, firstMatchLoop, h]
    · rw [if_neg h]
      simp [checkLocations, firstMatchLoop, closestLoop, h]

/-! ## Loop lemmas for the first-match and closest-region policies -/

theorem firstMatchLoop_eq_none_iff (lat lon : ℝ) (l : List GeoRegion) :
    firstMatchLoop lat lon l = none ↔ ∀ r ∈ l, ¬ WithinRegion lat lon r := by
  induction l with
  | nil => simp [firstMatchLoop]
  | cons a t ih =>
    by_cases h : calculateDistance lat lon a.latitude a.longitude ≤ a.radius
    · rw [firstMatchLoop, if_pos h]
      constructor
      · intro hc
        cases hc
      · intro hall
        exact absurd h (hall a (by simp))
    · rw [firstMatchLoop, if_neg h, ih]
      constructor
      · intro hall r hr
        rcases List.mem_cons.mp hr with rfl | hr
        · exact h
        · exact hall r hr
      · intro hall r hr
        exact hall r (List.mem_cons_of_mem a hr)

theorem firstMatchLoop_some (lat lon : ℝ) (l : List GeoRegion) (r : GeoRegion)
    (h : firstMatchLoop lat lon l = some r) : r ∈ l ∧ WithinRegion lat lon r := by
  induction l with
  | nil => cases h
  | cons a t ih =>
    by_cases hc : calculateDistance lat lon a.latitude a.longitude ≤ a.radius
    · rw [firstMatchLoop, if_pos hc] at h
      cases h
      exact ⟨by simp, hc⟩
    · rw [firstMatchLoop, if_neg hc] at h
      obtain ⟨hm, hw⟩ := ih h
      exact ⟨List.mem_cons_of_mem a hm, hw⟩

theorem firstMatchLoop_first (lat lon : ℝ) (l : List GeoRegion) (i : Fin l.length)
    (hi : WithinRegion lat lon (l.get i))
    (hj : ∀ j : Fin l.length, j < i → ¬ WithinRegion lat lon (l.get j)) :
    firstMatchLoop lat lon l = some (l.get i) := by
  induction l with
  | nil => exact i.elim0
  | cons a t ih =>
    induction i using Fin.cases with
    | zero =>
      have h0 : WithinRegion lat lon a := by simpa using hi
      have h0' : calculateDistance lat lon a.latitude a.longitude ≤ a.radius := h0
      rw [firstMatchLoop, if_pos h0']
      simp
    | succ k =>
      have ha : ¬ WithinRegion lat lon a := by
        have := hj ⟨0, by simp⟩ (by simp [Fin.lt_def])
        simpa using this
      have ha' : ¬ calculateDistance lat lon a.latitude a.longitude ≤ a.radius := ha
      rw [firstMatchLoop, if_neg ha']
      have hik : WithinRegion lat lon (t.get k) := hi
      have hjk : ∀ j : Fin t.length, j < k → ¬ WithinRegion lat lon (t.get j) := by
        intro j hjlt
        have h2 := hj j.succ (by rwa [Fin.succ_lt_succ_iff])
        exact h2
      exact ih k hik hjk

/-- Pure form of the running-minimum loop: `c` is the current closest
region (whose stored distance is always its own distance). -/
noncomputable def runMin (lat lon : ℝ) (c : GeoRegion) : List GeoRegion → GeoRegion
  | [] => c
  | l :: ls =>
    if calculateDistance lat lon l.latitude l.longitude <
        calculateDistance lat lon c.latitude c.longitude then
      runMin lat lon l ls
    else runMin lat lon c ls

theorem closestLoop_eq_runMin (lat lon : ℝ) (l : List GeoRegion) (c : GeoRegion) :
    closestLoop lat lon l (some (c, calculateDistance lat lon c.latitude c.longitude)) =
      some (runMin lat lon c l,
        calculateDistance lat lon (runMin lat lon c l).latitude
          (runMin lat lon c l).longitude) := by
  induction l generalizing c with
  | nil => rw [closestLoop, runMin]
  | cons a t ih =>
    rw [closestLoop, runMin]
    by_cases h : calculateDistance lat lon a.latitude a.longitude <
        calculateDistance lat lon c.latitude c.longitude
    · rw [if_pos h, if_pos h]
      exact ih a
    · rw [if_neg h, if_neg h]
      exact ih c

theorem runMin_spec (lat lon : ℝ) (c : GeoRegion) (l : List GeoRegion) :
    (runMin lat lon c l = c ∧
        ∀ r ∈ l, calculateDistance lat lon c.latitude c.longitude ≤
          calculateDistance lat lon r.latitude r.longitude) ∨
      ∃ i : Fin l.length, runMin lat lon c l = l.get i ∧
        calculateDistance lat lon (l.get i).latitude (l.get i).longitude <
          calculateDistance lat lon c.latitude c.longitude ∧
        (∀ r ∈ l, calculateDistance lat lon (l.get i).latitude (l.get i).longitude ≤
          calculateDistance lat lon r.latitude r.longitude) ∧
        ∀ j : Fin l.length, j < i →
          calculateDistance lat lon (l.get i).latitude (l.get i).longitude <
            calculateDistance lat lon (l.get j).latitude (l.get j).longitude := by
  induction l generalizing c with
  | nil =>
    left
    refine ⟨by rw [runMin], ?_⟩
    intro r hr
    cases hr
  | cons a t ih =>
    rw [runMin]
    by_cases h : calculateDistance lat lon a.latitude a.longitude <
        calculateDistance lat lon c.latitude c.longitude
    · rw [if_pos h]
      rcases ih a with ⟨heq, hmin⟩ | ⟨i, heq, hlt, hmin, hstrict⟩
      · right
        refine ⟨⟨0, by simp⟩, heq, h, ?_, ?_⟩
        · intro r hr
          rcases List.mem_cons.mp hr with rfl | hr
          · exact le_refl _
          · exact hmin r hr
        · intro j hj
          exact absurd hj (by simp [Fin.lt_def])
      · right
        refine ⟨i.succ, heq, lt_trans hlt h, ?_, ?_⟩
        · intro r hr
          rcases List.mem_cons.mp hr with rfl | hr
          · exact le_of_lt hlt
          · exact hmin r hr
        · intro j hj
          induction j using Fin.cases with
          | zero => exact hlt
          | succ j' => exact hstrict j' (Fin.succ_lt_succ_iff.mp hj)
    · rw [if_neg h]
      have hle : calculateDistance lat lon c.latitude c.longitude ≤
          calculateDistance lat lon a.latitude a.longitude := le_of_not_lt h
      rcases ih c with ⟨heq, hmin⟩ | ⟨i, heq, hlt, hmin, hstrict⟩
      · left
        refine ⟨heq, ?_⟩
        intro r hr
        rcases List.mem_cons.mp hr with rfl | hr
        · exact hle
        · exact hmin r hr
      · right
        refine ⟨i.succ, heq, hlt, ?_, ?_⟩
        · intro r hr
          rcases List.mem_cons.mp hr with rfl | hr
          · exact le_of_lt (lt_of_lt_of_le hlt hle)
          · exact hmin r hr
        · intro j hj
          induction j using Fin.cases with
          | zero => exact lt_of_lt_of_le hlt hle
          | succ j' => exact hstrict j' (Fin.succ_lt_succ_iff.mp hj)

/-! ## C1: first-match admission -/

/-- C1: for a non-empty region list, the validator admits exactly when
some region contains the point (boundary inclusive), and the reported
match is the first containing region in configuration order — regardless
of whether a later region is closer or also contains the point. -/
theorem validateLocationV1_first_match (regions : List GeoRegion) (lat lon : ℝ)
    (hne : regions ≠ []) :
    ((validateLocationV1 regions lat lon).isValid = true ↔
        ∃ r ∈ regions, WithinRegion lat lon r) ∧
      ∀ i : Fin regions.length,
        WithinRegion lat lon (regions.get i) →
        (∀ j : Fin regions.length, j < i → ¬ WithinRegion lat lon (regions.get j)) →
        validateLocationV1 regions lat lon =
          .admitted (regions.get i).name
            (jsRound (calculateDistance lat lon (regions.get i).latitude
              (regions.get i).longitude))
            (regions.get i).radius := by
  constructor
  · unfold validateLocationV1 checkLocations
    cases h : firstMatchLoop lat lon regions with
    | some r =>
      simp only [ValidationResult.isValid]
      obtain ⟨hm, hw⟩ := firstMatchLoop_some lat lon regions r h
      exact ⟨fun _ => ⟨r, hm, hw⟩, fun _ => trivial⟩
    | none =>
      obtain ⟨a, t, rfl⟩ : ∃ a t, regions = a :: t := by
        cases regions with
        | nil => exact absurd rfl hne
        | cons a t => exact ⟨a, t, rfl⟩
      simp only [closestLoop]
      rw [closestLoop_eq_runMin]
      simp only [ValidationResult.isValid]
      constructor
      · intro hfalse
        cases hfalse
      · rintro ⟨r, hm, hw⟩
        exact absurd hw ((firstMatchLoop_eq_none_iff lat lon _).mp h r hm)
  · intro i hi hj
    unfold validateLocationV1 checkLocations
    rw [firstMatchLoop_first lat lon regions i hi hj]

/-- Witness for `validateLocationV1_first_match`: a point at a region's
center is admitted by that region with reported distance 0. -/
theorem validateLocationV1_first_match_witness :
    ([(⟨"Office", 3, 4, 100⟩ : GeoRegion)] ≠ []) ∧
      validateLocationV1 [⟨"Office", 3, 4, 100⟩] 3 4 = .admitted "Office" 0 100 := by
  constructor
  · exact List.cons_ne_nil _ _
  · have hwithin : WithinRegion 3 4 (⟨"Office", 3, 4, 100⟩ : GeoRegion) := by
      unfold WithinRegion
      rw [calculateDistance_self]
      norm_num
    have h := (validateLocationV1_first_match [⟨"Office", 3, 4, 100⟩] 3 4
      (List.cons_ne_nil _ _)).2 ⟨0, by simp⟩ hwithin
      (fun j hj => absurd hj (by simp [Fin.lt_def]))
    rw [h]
    show ValidationResult.admitted "Office" (jsRound (calculateDistance 3 4 3 4)) 100 =
      ValidationResult.admitted "Office" 0 100
    rw [calculateDistance_self, jsRound_zero]

/-! ## C2: rejection reports the closest region -/

/-- C2: for a non-empty region list and a point outside every region, the
validator rejects, reporting the minimum distance over all regions and
the first region attaining that minimum in configuration order (strictly
smaller than every earlier region's distance), with that region's radius. -/
theorem validateLocationV1_closest (regions : List GeoRegion) (lat lon : ℝ)
    (hne : regions ≠ [])
    (hout : ∀ r ∈ regions, ¬ WithinRegion lat lon r) :
    ∃ i : Fin regions.length,
      (∀ r ∈ regions,
        calculateDistance lat lon (regions.get i).latitude (regions.get i).longitude ≤
          calculateDistance lat lon r.latitude r.longitude) ∧
      (∀ j : Fin regions.length, j < i →
        calculateDistance lat lon (regions.get i).latitude (regions.get i).longitude <
          calculateDistance lat lon (regions.get j).latitude (regions.get j).longitude) ∧
      validateLocationV1 regions lat lon =
        .rejected (regions.get i).name
          (jsRound (calculateDistance lat lon (regions.get i).latitude
            (regions.get i).longitude))
          (regions.get i).radius := by
  obtain ⟨a, t, rfl⟩ : ∃ a t, regions = a :: t := by
    cases regions with
    | nil => exact absurd rfl hne
    | cons a t => exact ⟨a, t, rfl⟩
  have hnone : firstMatchLoop lat lon (a :: t) = none :=
    (firstMatchLoop_eq_none_iff lat lon _).mpr hout
  unfold validateLocationV1 checkLocations
  rw [hnone]
  simp only [closestLoop]
  rw [closestLoop_eq_runMin]
  rcases runMin_spec lat lon a t with ⟨heq, hmin⟩ | ⟨i, heq, hlt, hmin, hstrict⟩
  · refine ⟨⟨0, by simp⟩, ?_, ?_, ?_⟩
    · intro r hr
      rcases List.mem_cons.mp hr with rfl | hr
      · exact le_refl _
      · exact hmin r hr
    · intro j hj
      exact absurd hj (by simp [Fin.lt_def])
    · rw [heq]
      rfl
  · refine ⟨i.succ, ?_, ?_, ?_⟩
    · intro r hr
      rcases List.mem_cons.mp hr with rfl | hr
      · exact le_of_lt hlt
      · exact hmin r hr
    · intro j hj
      induction j using Fin.cases with
      | zero => exact hlt
      | succ j' => exact hstrict j' (Fin.succ_lt_succ_iff.mp hj)
    · rw [heq]
      rfl

/-- Witness for `validateLocationV1_closest`: with a single region whose
radius is negative, its own center lies outside it, and the rejection
reports that region at distance 0. -/
theorem validateLocationV1_closest_witness :
    (∀ r ∈ [(⟨"A", 3, 4, -1⟩ : GeoRegion)], ¬ WithinRegion 3 4 r) ∧
      validateLocationV1 [⟨"A", 3, 4, -1⟩] 3 4 = .rejected "A" 0 (-1) := by
  have hout : ∀ r ∈ [(⟨"A", 3, 4, -1⟩ : GeoRegion)], ¬ WithinRegion 3 4 r := by
    intro r hr
    rcases List.mem_cons.mp hr with rfl | hr
    · unfold WithinRegion
      rw [calculateDistance_self]
      norm_num
    · cases hr
  refine ⟨hout, ?_⟩
  obtain ⟨i, hmin, hstrict, heq⟩ :=
    validateLocationV1_closest [⟨"A", 3, 4, -1⟩] 3 4 (List.cons_ne_nil _ _) hout
  have hlt1 : i.val < 1 := i.isLt
  have hi0 : i = ⟨0, by simp⟩ := by
    apply Fin.ext
    show i.val = 0
    omega
  rw [hi0] at heq
  rw [heq]
  show ValidationResult.rejected "A" (jsRound (calculateDistance 3 4 3 4)) (-1) =
    ValidationResult.rejected "A" 0 (-1)
  rw [calculateDistance_self, jsRound_zero]

/-! ## Cookie decoding and JSON parsing (JavaScript built-ins used by the
cookie fallback of `extractCredentials`) -/

/-- Truthiness of a possibly-`undefined` string value. -/
def jsTruthyStrOpt : Option String → Bool
  | none => false
  | some s => decide (s ≠ "")

/-- JavaScript `a || b` on possibly-`undefined` strings. -/
def jsOrStr (a b : Option String) : Option String :=
  match a with
  | some s => if s = "" then b else some s
  | none => b

/-- Hexadecimal digit value (either case). -/
def hexDigitVal (c : Char) : Option ℕ :=
  if '0' ≤ c ∧ c ≤ '9' then some (c.toNat - Char.toNat '0')
  else if 'a' ≤ c ∧ c ≤ 'f' then some (c.toNat - Char.toNat 'a' + 10)
  else if 'A' ≤ c ∧ c ≤ 'F' then some (c.toNat - Char.toNat 'A' + 10)
  else none

/-- The UTF-8 encoding of a character, as a list of byte values. -/
def utf8Bytes (c : Char) : List ℕ :=
  let n := c.toNat
  if n < 0x80 then [n]
  else if n < 0x800 then [0xC0 + n / 64, 0x80 + n % 64]
  else if n < 0x10000 then [0xE0 + n / 4096, 0x80 + n / 64 % 64, 0x80 + n % 64]
  else [0xF0 + n / 262144, 0x80 + n / 4096 % 64, 0x80 + n / 64 % 64, 0x80 + n % 64]

/-- Percent-decode a character sequence to a byte sequence: a `%` must be
followed by two hexadecimal digits (otherwise `decodeURIComponent`
throws); any other character contributes its UTF-8 bytes. -/
def pctBytes : List Char → Option (List ℕ)
  | [] => some []
  | '%' :: c1 :: c2 :: rest =>
    match hexDigitVal c1, hexDigitVal c2, pctBytes rest with
    | some h, some l, some bs => some ((16 * h + l) :: bs)
    | _, _, _ => none
  | '%' :: _ => none
  | c :: rest =>
    match pctBytes rest with
    | some bs => some (utf8Bytes c ++ bs)
    | none => none

/-- Decode a UTF-8 byte sequence into characters, rejecting malformed
sequences (overlong forms, surrogates, out-of-range values) as
`decodeURIComponent` does with a `URIError`. -/
def utf8Decode : List ℕ → Option (List Char)
  | [] => some []
  | b :: rest =>
    if b < 0x80 then
      (utf8Decode rest).map (fun cs => Char.ofNat b :: cs)
    else if 0xC0 ≤ b ∧ b < 0xE0 then
      match rest with
      | b2 :: rest2 =>
        if 0x80 ≤ b2 ∧ b2 < 0xC0 then
          let n := (b - 0xC0) * 64 + (b2 - 0x80)
          if 0x80 ≤ n then (utf8Decode rest2).map (fun cs => Char.ofNat n :: cs)
          else none
        else none
      | [] => none
    else if 0xE0 ≤ b ∧ b < 0xF0 then
      match rest with
      | b2 :: b3 :: rest2 =>
        if (0x80 ≤ b2 ∧ b2 < 0xC0) ∧ (0x80 ≤ b3 ∧ b3 < 0xC0) then
          let n := (b - 0xE0) * 4096 + (b2 - 0x80) * 64 + (b3 - 0x80)
          if 0x800 ≤ n ∧ (n < 0xD800 ∨ 0xE000 ≤ n) then
            (utf8Decode rest2).map (fun cs => Char.ofNat n :: cs)
          else none
        else none
      | _ => none
    else if 0xF0 ≤ b ∧ b < 0xF5 then
      match rest with
      | b2 :: b3 :: b4 :: rest2 =>
        if (0x80 ≤ b2 ∧ b2 < 0xC0) ∧ (0x80 ≤ b3 ∧ b3 < 0xC0) ∧ (0x80 ≤ b4 ∧ b4 < 0xC0) then
          let n := (b - 0xF0) * 262144 + (b2 - 0x80) * 4096 + (b3 - 0x80) * 64 + (b4 - 0x80)
          if 0x10000 ≤ n ∧ n < 0x110000 then
            (utf8Decode rest2).map (fun cs => Char.ofNat n :: cs)
          else none
        else none
      | _ => none
    else none

/-- Model of `decodeURIComponent`: percent-decode, then UTF-8-decode;
`none` models a thrown `URIError`. -/
def decodeURIComponentM (s : String) : Option String :=
  match pctBytes s.data with
  | some bs =>
    match utf8Decode bs with
    | some cs => some (String.mk cs)
    | none => none
  | none => none

/-- JSON whitespace characters. -/
def jsonWs (c : Char) : Bool :=
  c = ' ' ∨ c = Char.ofNat 9 ∨ c = Char.ofNat 10 ∨ c = Char.ofNat 13

/-- Drop leading JSON whitespace. -/
def skipWs : List Char → List Char
  | c :: rest => if jsonWs c then skipWs rest else c :: rest
  | [] => []

/-- Parse the body of a JSON string literal after the opening quote,
returning the characters and the remainder after the closing quote.
Control characters must be escaped; `\u` escapes in the surrogate range
are not representable as Lean characters and are rejected (JSON.parse
accepts lone surrogates; no cookie relevant to the claims contains one). -/
def parseStringBody : List Char → Option (List Char × List Char)
  | [] => none
  | c :: rest =>
    if c = Char.ofNat 34 then some ([], rest)
    else if c = Char.ofNat 92 then
      match rest with
      | [] => none
      | e :: rest2 =>
        if e = Char.ofNat 34 ∨ e = Char.ofNat 92 ∨ e = '/' then
          (parseStringBody rest2).map (fun p => (e :: p.1, p.2))
        else if e = 'b' then
          (parseStringBody rest2).map (fun p => (Char.ofNat 8 :: p.1, p.2))
        else if e = 'f' then
          (parseStringBody rest2).map (fun p => (Char.ofNat 12 :: p.1, p.2))
        else if e = 'n' then
          (parseStringBody rest2).map (fun p => (Char.ofNat 10 :: p.1, p.2))
        else if e = 'r' then
          (parseStringBody rest2).map (fun p => (Char.ofNat 13 :: p.1, p.2))
        else if e = 't' then
          (parseStringBody rest2).map (fun p => (Char.ofNat 9 :: p.1, p.2))
        else if e = 'u' then
          match rest2 with
          | h1 :: h2 :: h3 :: h4 :: rest3 =>
            match hexDigitVal h1, hexDigitVal h2, hexDigitVal h3, hexDigitVal h4 with
            | some a, some b, some c2, some d =>
              let n := ((a * 16 + b) * 16 + c2) * 16 + d
              if n < 0xD800 ∨ 0xE000 ≤ n then
                (parseStringBody rest3).map (fun p => (Char.ofNat n :: p.1, p.2))
              else none
            | _, _, _, _ => none
          | _ => none
        else none
    else if c.toNat < 0x20 then none
    else (parseStringBody rest).map (fun p => (c :: p.1, p.2))

/-- Accumulate decimal digits into a natural number. -/
def digitsToNat : List Char → ℕ → ℕ
  | [], acc => acc
  | c :: rest, acc => digitsToNat rest (acc * 10 + (c.toNat - Char.toNat '0'))

/-- Split off a maximal run of leading decimal digits. -/
def takeDigits : List Char → List Char × List Char
  | [] => ([], [])
  | c :: rest =>
    if '0' ≤ c ∧ c ≤ '9' then
      let p := takeDigits rest
      (c :: p.1, p.2)
    else ([], c :: rest)

/-- Parse an optional JSON fraction part. -/
def parseFrac : List Char → Option (ℚ × List Char)
  | '.' :: rest =>
    match takeDigits rest with
    | ([], _) => none
    | (ds, cs2) => some ((digitsToNat ds 0 : ℚ) / (10 : ℚ) ^ ds.length, cs2)
  | cs => some (0, cs)

/-- Parse an optional JSON exponent part. -/
def parseExp : List Char → Option (ℤ × List Char)
  | c :: rest =>
    if c = 'e' ∨ c = 'E' then
      let sr : ℤ × List Char :=
        match rest with
        | '+' :: r => (1, r)
        | '-' :: r => (-1, r)
        | r => (1, r)
      match takeDigits sr.2 with
      | ([], _) => none
      | (ds, cs2) => some (sr.1 * (digitsToNat ds 0 : ℤ), cs2)
    else some (0, c :: rest)
  | [] => some (0, [])

/-- Integer power of ten as a rational. -/
def qpow10 : ℤ → ℚ
  | .ofNat n => (10 : ℚ) ^ n
  | .negSucc n => 1 / (10 : ℚ) ^ (n + 1)

/-- Parse a JSON number (sign, integer part without leading zeros,
optional fraction and exponent). -/
def parseNumber (cs : List Char) : Option (ℚ × List Char) :=
  let sr : Bool × List Char :=
    match cs with
    | c :: rest => if c = '-' then (true, rest) else (false, c :: rest)
    | [] => (false, [])
  match takeDigits sr.2 with
  | ([], _) => none
  | (ds, cs2) =>
    if 1 < ds.length ∧ ds.head? = some '0' then none
    else
      match parseFrac cs2 with
      | none => none
      | some (fr, cs3) =>
        match parseExp cs3 with
        | none => none
        | some (e, cs4) =>
          let mag : ℚ := ((digitsToNat ds 0 : ℚ) + fr) * qpow10 e
          some (if sr.1 then -mag else mag, cs4)

mutual

/-- Recursive-descent JSON value parser; the fuel argument strictly
decreases on every recursive call and is seeded with the input length. -/
def parseValue : ℕ → List Char → Option (Json × List Char)
  | 0, _ => none
  | n + 1, cs =>
    match skipWs cs with
    | [] => none
    | c :: rest =>
      if c = Char.ofNat 34 then
        match parseStringBody rest with
        | some (chars, rest2) => some (.str (String.mk chars), rest2)
        | none => none
      else if c = Char.ofNat 123 then
        match skipWs rest with
        | d :: rest2 =>
          if d = Char.ofNat 125 then some (.obj [], rest2)
          else
            match parseMembers n (d :: rest2) with
            | some (fields, rest3) => some (.obj fields, rest3)
            | none => none
        | [] => none
      else if c = '[' then
        match skipWs rest with
        | d :: rest2 =>
          if d = ']' then some (.arr [], rest2)
          else
            match parseElements n (d :: rest2) with
            | some (elems, rest3) => some (.arr elems, rest3)
            | none => none
        | [] => none
      else if c = 't' then
        match rest with
        | 'r' :: 'u' :: 'e' :: rest2 => some (.bool true, rest2)
        | _ => none
      else if c = 'f' then
        match rest with
        | 'a' :: 'l' :: 's' :: 'e' :: rest2 => some (.bool false, rest2)
        | _ => none
      else if c = 'n' then
        match rest with
        | 'u' :: 'l' :: 'l' :: rest2 => some (.null, rest2)
        | _ => none
      else
        match parseNumber (c :: rest) with
        | some (q, rest2) => some (.num q, rest2)
        | none => none

/-- Parse the members of a JSON object after the opening brace. -/
def parseMembers : ℕ → List Char → Option (List (String × Json) × List Char)
  | 0, _ => none
  | n + 1, cs =>
    match skipWs cs with
    | c :: rest =>
      if c = Char.ofNat 34 then
        match parseStringBody rest with
        | some (keyChars, rest2) =>
          match skipWs rest2 with
          | ':' :: rest3 =>
            match parseValue n rest3 with
            | some (v, rest4) =>
              match skipWs rest4 with
              | ',' :: rest5 =>
                match parseMembers n rest5 with
                | some (fields, rest6) =>
                  some ((String.mk keyChars, v) :: fields, rest6)
                | none => none
              | d :: rest5 =>
                if d = Char.ofNat 125 then some ([(String.mk keyChars, v)], rest5)
                else none
              | [] => none
            | none => none
          | _ => none
        | none => none
      else none
    | [] => none

/-- Parse the elements of a JSON array after the opening bracket. -/
def parseElements : ℕ → List Char → Option (List Json × List Char)
  | 0, _ => none
  | n + 1, cs =>
    match parseValue n cs with
    | some (v, rest) =>
      match skipWs rest with
      | ',' :: rest2 =>
        match parseElements n rest2 with
        | some (elems, rest3) => some (v :: elems, rest3)
        | none => none
      | ']' :: rest2 => some ([v], rest2)
      | _ => none
    | none => none

end

/-- Model of `JSON.parse`: parse one JSON value, allowing only trailing
whitespace; `none` models a thrown `SyntaxError`. -/
def jsonParse (s : String) : Option Json :=
  match parseValue (s.length + 1) s.data with
  | some (v, rest) => if skipWs rest = [] then some v else none
  | none => none

/-! ## Credential extraction with cookie fallback -/

/-- The cookie-pair map built by `split(';')`, `trim`, `split('=')` and
object assignment (source lines 1100-1104): an association list in
assignment order; a pair without `=` maps its key to `undefined`. -/
def parseCookies (s : String) : List (String × Option String) :=
  (splitOnChar ';' s.data).map (fun part =>
    match splitOnChar '=' (trimList part) with
    | [] => ("", none)
    | [k] => (String.mk k, none)
    | k :: v :: _ => (String.mk k, some (String.mk v)))

/-- Read a cookie from the map as JavaScript property access does: absent
keys and keys assigned `undefined` both give `undefined`; a duplicate
key keeps the last assignment. -/
def cookieGet (cookies : List (String × Option String)) (k : String) : Option String :=
  match cookies.reverse.find? (fun p => p.1 == k) with
  | some p => p.2
  | none => none

/-- The body of the cookie `try` block (source lines 1109-1115): decode,
parse, and read the token preference chain
`accessToken || data?.accessToken || token || data?.token`.
`none` models a thrown exception (malformed URI, malformed JSON, or
property access on `null`), in which case `token` keeps its previous
falsy value. -/
def cookieTokenAttempt (userCookie : String) : Option (Option Json) :=
  match decodeURIComponentM userCookie with
  | none => none
  | some decoded =>
    match jsonParse decoded with
    | none => none
    | some .null => none
    | some userData =>
      some (jsOr (userData.getField "accessToken")
        (jsOr (jsOptField (userData.getField "data") "accessToken")
          (jsOr (userData.getField "token")
            (jsOptField (userData.getField "data") "token"))))

/-- The cookie branch of `extractCredentials` (source lines 1099-1117),
given the cookie header text: `some newToken` when the `userCookie`
lookup is truthy and the `try` block completes, `none` when there is no
usable cookie or the attempt throws (the token then keeps its previous
value). -/
def cookieBranch (hdr : String) : Option (Option Json) :=
  let cookies := parseCookies hdr
  match jsOrStr (cookieGet cookies "currentUser")
      (jsOrStr (cookieGet cookies "user") (cookieGet cookies "authUser")) with
  | some uc => if uc = "" then none else cookieTokenAttempt uc
  | none => none

/-- Embedding of the cookie-aware `extractCredentials` (source lines
1094-1123, identical at 2825-2854): bearer/body token first; when that is
falsy and the Cookie header is truthy, the cookie lookup may overwrite
the token; `userId` and `role` as in the cookie-less variant. -/
def extractCredentials (req : Request) : Credentials :=
  let token0 := jsOr (req.authorization.map (fun a => .str (jsReplaceFirst a "Bearer ")))
    (jsOptField req.body "token")
  let token :=
    if jsTruthyOpt token0 = false ∧ jsTruthyStrOpt req.cookie = true then
      match cookieBranch (req.cookie.getD "") with
      | some newTok => newTok
      | none => token0
    else token0
  { token := token
    userId := jsOr (req.paramsId.map .str)
      (jsOr (jsOptField req.body "userId") (req.xUserId.map .str))
    role := jsOr (req.xUserRole.map .str) (jsOptField req.body "role") }

/-! ## C4: per-field precedence of credential resolution -/

/-- Strip `"Bearer "` only when it is a prefix — the specification's
wording of the Authorization rule. -/
def stripBearer (a : String) : String :=
  if a.take 7 = "Bearer " then a.drop 7 else a

/-- Credential resolution exactly as claim C4 states it: the first
PRESENT source wins per field (absence, not falsiness, moves to the next
source), and the Authorization header has its `Bearer ` prefix stripped.
The cookie extraction (whose internals claim C7 describes) is the third
token source. -/
def credsPerClaim (req : Request) : Credentials :=
  { token :=
      match req.authorization with
      | some a => some (.str (stripBearer a))
      | none =>
        match jsOptField req.body "token" with
        | some t => some t
        | none =>
          match req.cookie with
          | some hdr =>
            match cookieBranch hdr with
            | some t => t
            | none => none
          | none => none
    userId :=
      match req.paramsId with
      | some i => some (.str i)
      | none =>
        match jsOptField req.body "userId" with
        | some u => some u
        | none => req.xUserId.map .str
    role :=
      match req.xUserRole with
      | some r => some (.str r)
      | none => jsOptField req.body "role" }

/-- C4 counterexample: a request with Authorization header `"Bearer "`
(empty once stripped), empty `id` path parameter, empty `x-user-role`
header, and body fields `token`, `userId`, `role`.  Presence-based
resolution would take the header/parameter values; the code's
truthiness-based chains fall through to the body for all three fields. -/
theorem extractCredentials_presence_counterexample :
    extractCredentials
        ⟨some "Bearer ", none, some "u", some "", some "",
          some (.obj [("token", .str "t"), ("userId", .str "u2"), ("role", .str "admin")])⟩ ≠
      credsPerClaim
        ⟨some "Bearer ", none, some "u", some "", some "",
          some (.obj [("token", .str "t"), ("userId", .str "u2"), ("role", .str "admin")])⟩ := by
  have hc : extractCredentials
      ⟨some "Bearer ", none, some "u", some "", some "",
        some (.obj [("token", .str "t"), ("userId", .str "u2"), ("role", .str "admin")])⟩ =
      ⟨some (.str "t"), some (.str "u2"), some (.str "admin")⟩ := rfl
  have hs : credsPerClaim
      ⟨some "Bearer ", none, some "u", some "", some "",
        some (.obj [("token", .str "t"), ("userId", .str "u2"), ("role", .str "admin")])⟩ =
      ⟨some (.str ""), some (.str ""), some (.str "")⟩ := rfl
  rw [hc, hs]
  intro h
  injection h with h1 h2 h3
  injection h1 with h1
  injection h1 with h1
  exact absurd h1 (by decide)

/-- A chain of possibly-`undefined` JavaScript values: the first truthy
candidate wins; when every candidate is falsy the last one's value is
returned, exactly like chained `||`. -/
def firstTruthy : List (Option Json) → Option Json
  | [] => none
  | [x] => x
  | x :: xs => if jsTruthyOpt x = true then x else firstTruthy xs

theorem jsOr_pair (a b : Option Json) : jsOr a b = firstTruthy [a, b] := by
  cases a with
  | none => rfl
  | some v =>
    show (if jsTruthy v then some v else b) = if jsTruthyOpt (some v) = true then some v else _
    by_cases h : jsTruthy v
    · rw [if_pos h, if_pos (by simpa [jsTruthyOpt] using h)]
    · rw [if_neg h, if_neg (by simpa [jsTruthyOpt] using h)]
      rfl

theorem firstTruthy_nest (a b c : Option Json) :
    firstTruthy [a, firstTruthy [b, c]] = firstTruthy [a, b, c] := by
  by_cases h : jsTruthyOpt a = true
  · show (if jsTruthyOpt a = true then a else _) = if jsTruthyOpt a = true then a else _
    rw [if_pos h, if_pos h]
  · show (if jsTruthyOpt a = true then a else _) = if jsTruthyOpt a = true then a else _
    rw [if_neg h, if_neg h]
    rfl

/-- Claim C4 as amended: first-truthy-wins per field (JavaScript
truthiness — empty strings, `0`, `false` and `null` count as absent at
every step), with the first occurrence of `"Bearer "` removed anywhere in
the Authorization header, and the cookie extraction engaged only when the
bearer/body chain is falsy and a non-empty Cookie header exists. -/
def credsAmended (req : Request) : Credentials :=
  let t0 := firstTruthy [req.authorization.map (fun a => .str (jsReplaceFirst a "Bearer ")),
    jsOptField req.body "token"]
  { token :=
      if jsTruthyOpt t0 = false ∧ jsTruthyStrOpt req.cookie = true then
        match cookieBranch (req.cookie.getD "") with
        | some newTok => newTok
        | none => t0
      else t0
    userId := firstTruthy [req.paramsId.map .str, jsOptField req.body "userId",
      req.xUserId.map .str]
    role := firstTruthy [req.xUserRole.map .str, jsOptField req.body "role"] }

/-- C4 as amended, proved: the extractor resolves every field by the
first-truthy-wins chains (bearer-with-first-occurrence-removed, body,
cookie for the token; path parameter, body, header for the user id;
header, body for the role). -/
theorem extractCredentials_amended_precedence (req : Request) :
    extractCredentials req = credsAmended req := by
  simp only [extractCredentials, credsAmended, jsOr_pair, firstTruthy_nest]

/-! ## C7: cookie-based token fallback -/

/-- The cookie token pipeline exactly as claim C7 describes it: parse the
cookie list, look up `currentUser`, `user`, `authUser` in order,
URL-decode and JSON-parse the found value, and take the token by the
`accessToken`, `data.accessToken`, `token`, `data.token` preference;
every failure (no usable cookie, malformed encoding or JSON, wrong
shape, falsy fields) yields no token. -/
def cookieTokenSpec (hdr : String) : Option Json :=
  let cookies := parseCookies hdr
  match jsOrStr (cookieGet cookies "currentUser")
      (jsOrStr (cookieGet cookies "user") (cookieGet cookies "authUser")) with
  | none => none
  | some uc =>
    if uc = "" then none
    else
      match cookieTokenAttempt uc with
      | none => none
      | some t => if jsTruthyOpt t = true then t else none

theorem cookieTokenSpec_eq_branch (hdr : String) :
    cookieTokenSpec hdr =
      match cookieBranch hdr with
      | none => none
      | some t => if jsTruthyOpt t = true then t else none := by
  simp only [cookieTokenSpec, cookieBranch]
  cases jsOrStr (cookieGet (parseCookies hdr) "currentUser")
      (jsOrStr (cookieGet (parseCookies hdr) "user")
        (cookieGet (parseCookies hdr) "authUser")) with
  | none => rfl
  | some uc =>
    by_cases huc : uc = ""
    · simp [huc]
    · simp only [if_neg huc]

theorem extractCredentials_token_of_cookie (req : Request) (hdr : String)
    (hcookie : req.cookie = some hdr) (hne : hdr ≠ "")
    (hnotok : jsTruthyOpt (jsOr (req.authorization.map
        (fun a => .str (jsReplaceFirst a "Bearer ")))
      (jsOptField req.body "token")) = false) :
    (extractCredentials req).token =
      match cookieBranch hdr with
      | some newTok => newTok
      | none =>
        jsOr (req.authorization.map (fun a => .str (jsReplaceFirst a "Bearer ")))
          (jsOptField req.body "token") := by
  simp only [extractCredentials]
  rw [hcookie]
  have hstr : jsTruthyStrOpt (some hdr) = true := by
    simp [jsTruthyStrOpt, hne]
  rw [if_pos ⟨hnotok, hstr⟩]
  rfl

/-- C7: on a request with no truthy bearer/body token and a Cookie header
present, the extractor resolves the token by the claim's cookie pipeline
(lookup order `currentUser`, `user`, `authUser`; URL-decode then
JSON-parse; preference `accessToken`, `data.accessToken`, `token`,
`data.token`); when that pipeline fails at any step the resolution
degrades to a falsy token instead of raising an error. -/
theorem extractCredentials_cookie_fallback (req : Request) (hdr : String)
    (hcookie : req.cookie = some hdr)
    (hnotok : jsTruthyOpt (jsOr (req.authorization.map
        (fun a => .str (jsReplaceFirst a "Bearer ")))
      (jsOptField req.body "token")) = false) :
    match cookieTokenSpec hdr with
    | some v => (extractCredentials req).token = some v ∧ jsTruthy v = true
    | none => jsTruthyOpt (extractCredentials req).token = false := by
  by_cases hne : hdr = ""
  · subst hne
    have hspec : cookieTokenSpec "" = none := rfl
    rw [hspec]
    show jsTruthyOpt (extractCredentials req).token = false
    have htok : (extractCredentials req).token =
        jsOr (req.authorization.map (fun a => .str (jsReplaceFirst a "Bearer ")))
          (jsOptField req.body "token") := by
      simp only [extractCredentials]
      rw [hcookie]
      rw [if_neg (by simp [jsTruthyStrOpt])]
    rw [htok]
    exact hnotok
  · have htok := extractCredentials_token_of_cookie req hdr hcookie hne hnotok
    have hbr := cookieTokenSpec_eq_branch hdr
    cases hcb : cookieBranch hdr with
    | none =>
      rw [hcb] at htok
      have htok' : (extractCredentials req).token =
          jsOr (req.authorization.map (fun a => .str (jsReplaceFirst a "Bearer ")))
            (jsOptField req.body "token") := htok
      have hspec : cookieTokenSpec hdr = none := by rw [hbr, hcb]
      rw [hspec]
      show jsTruthyOpt (extractCredentials req).token = false
      rw [htok']
      exact hnotok
    | some t =>
      rw [hcb] at htok
      have htok' : (extractCredentials req).token = t := htok
      have hbr' : cookieTokenSpec hdr = if jsTruthyOpt t = true then t else none := by
        rw [hbr, hcb]
      by_cases ht : jsTruthyOpt t = true
      · have hspec : cookieTokenSpec hdr = t := by rw [hbr', if_pos ht]
        cases t with
        | none => simp [jsTruthyOpt] at ht
        | some v =>
          rw [hspec]
          show (extractCredentials req).token = some v ∧ jsTruthy v = true
          exact ⟨htok', by simpa [jsTruthyOpt] using ht⟩
      · have hspec : cookieTokenSpec hdr = none := by rw [hbr', if_neg ht]
        rw [hspec]
        show jsTruthyOpt (extractCredentials req).token = false
        rw [htok']
        simpa using ht

/-- Witness for `extractCredentials_cookie_fallback`: the specification's
Example 3 — an encoded `currentUser` cookie and no other token source
resolves the token `"abc123"`. -/
theorem extractCredentials_cookie_fallback_witness :
    ((⟨none, some "currentUser=%7B%22accessToken%22%3A%22abc123%22%7D", none, none, none,
          none⟩ : Request).cookie =
        some "currentUser=%7B%22accessToken%22%3A%22abc123%22%7D") ∧
      (extractCredentials ⟨none, some "currentUser=%7B%22accessToken%22%3A%22abc123%22%7D",
          none, none, none, none⟩).token = some (.str "abc123") := by
  constructor
  · rfl
  · have h := extractCredentials_cookie_fallback
      ⟨none, some "currentUser=%7B%22accessToken%22%3A%22abc123%22%7D", none, none, none, none⟩
      "currentUser=%7B%22accessToken%22%3A%22abc123%22%7D" rfl rfl
    rw [show cookieTokenSpec "currentUser=%7B%22accessToken%22%3A%22abc123%22%7D" =
      some (.str "abc123") from rfl] at h
    exact h.1

/-! ## Punch-in handlers: local phase -/

/-- The number JavaScript arithmetic would use for a JSON value.  Only
numeric bodies are modelled faithfully (numeric strings and `NaN` are
outside the real-number model; every theorem below evaluates handlers at
numeric coordinates only). -/
noncomputable def jsToNumber : Json → ℝ
  | .num q => (q : ℝ)
  | .bool true => 1
  | _ => 0

/-- Outcome of the local (pre-upstream) phase of a punch-in handler.
Only `forward` issues an upstream request. -/
inductive PunchInDecision where
  | unauthorized
  | missingLocation
  | locationRejected (closestLocation : String) (distance : ℤ) (allowedRadius : ℝ)
  | configError
  | forward (token : Option Json) (latitude longitude : Json)

/-- HTTP status of each local response of the first punch-in handler
(source lines 678, 688, 701, 723). -/
def punchInV1Status : PunchInDecision → Option ℕ
  | .unauthorized => some 401
  | .missingLocation => some 400
  | .locationRejected _ _ _ => some 403
  | .configError => some 500
  | .forward _ _ _ => none

/-- HTTP status of each local response of the cookie-forwarding punch-in
handler (source lines 3528, 3538, 3547); its geofence rejection uses 400. -/
def punchInV4Status : PunchInDecision → Option ℕ
  | .unauthorized => some 401
  | .missingLocation => some 400
  | .locationRejected _ _ _ => some 400
  | .configError => some 500
  | .forward _ _ _ => none

/-- Embedding of the local phase of the first punch-in handler (source
lines 665-762): token check, truthiness check on the body coordinates,
geofence validation, API-base check, then forward. -/
noncomputable def punchInV1 (regions : List GeoRegion) (apiBase : String)
    (req : Request) : PunchInDecision :=
  let creds := extractCredentialsSimple req
  if jsTruthyOpt creds.token = false then .unauthorized
  else
    let latitude := jsOptField req.body "latitude"
    let longitude := jsOptField req.body "longitude"
    if jsTruthyOpt latitude = false ∨ jsTruthyOpt longitude = false then .missingLocation
    else
      match validateLocationV1 regions (jsToNumber (latitude.getD .null))
          (jsToNumber (longitude.getD .null)) with
      | .rejected c d r => .locationRejected c d r
      | .admitted _ _ _ =>
        if apiBase = "" then .configError
        else .forward creds.token (latitude.getD .null) (longitude.getD .null)

/-- Embedding of the local phase of the cookie-forwarding punch-in
handler (source lines 3522-3580): authentication passes when a truthy
token OR any truthy Cookie header is present; then the coordinate
truthiness check and the flag variant's geofence validation; no API-base
check before the forward. -/
noncomputable def punchInV4 (allowDynamic : Bool) (defaultRadius : ℝ)
    (regions : List GeoRegion) (req : Request) : PunchInDecision :=
  let creds := extractCredentials req
  if jsTruthyOpt creds.token = false ∧ jsTruthyStrOpt req.cookie = false then .unauthorized
  else
    let latitude := jsOptField req.body "latitude"
    let longitude := jsOptField req.body "longitude"
    if jsTruthyOpt latitude = false ∨ jsTruthyOpt longitude = false then .missingLocation
    else
      match validateLocation allowDynamic defaultRadius regions
          (jsToNumber (latitude.getD .null)) (jsToNumber (longitude.getD .null)) with
      | .rejected c d r => .locationRejected c d r
      | .admitted _ _ _ => .forward creds.token (latitude.getD .null) (longitude.getD .null)

/-- A single negative-radius region rejects its own center at reported
distance 0 (computation helper for handler witnesses). -/
theorem validateLocationV1_negRadius_center :
    validateLocationV1 [⟨"A", 1, 2, -1⟩] 1 2 = .rejected "A" 0 (-1) := by
  unfold validateLocationV1 checkLocations
  have hfar : ¬ calculateDistance 1 2
      (GeoRegion.latitude ⟨"A", 1, 2, -1⟩) (GeoRegion.longitude ⟨"A", 1, 2, -1⟩) ≤
      GeoRegion.radius ⟨"A", 1, 2, -1⟩ := by
    show ¬ calculateDistance 1 2 1 2 ≤ (-1 : ℝ)
    rw [calculateDistance_self]
    norm_num
  have hno : firstMatchLoop 1 2 [⟨"A", 1, 2, -1⟩] = none := by
    rw [firstMatchLoop, if_neg hfar]
    rfl
  rw [hno]
  simp only [closestLoop]
  show ValidationResult.rejected "A" (jsRound (calculateDistance 1 2 1 2)) (-1) =
    ValidationResult.rejected "A" 0 (-1)
  rw [calculateDistance_self, jsRound_zero]

/-! ## C5: local refusals of the punch-in handlers -/

/-- C5 counterexample: in the cookie-forwarding variant, a request whose
Cookie header yields no token (and that has no other token source) passes
the authentication check and reaches the upstream forward with a falsy
token — no 401 is returned even though no token is resolvable. -/
theorem punchInV4_forwards_without_token :
    jsTruthyOpt (extractCredentials
        ⟨none, some "foo=bar", none, none, none,
          some (.obj [("latitude", .num 1), ("longitude", .num 2)])⟩).token = false ∧
      punchInV4 true 100 []
          ⟨none, some "foo=bar", none, none, none,
            some (.obj [("latitude", .num 1), ("longitude", .num 2)])⟩ =
        .forward none (.num 1) (.num 2) := by
  exact ⟨rfl, rfl⟩

/-- C5 as amended: the token-only punch-in handler refuses with 401
whenever the resolved token is falsy and refuses with the
location-rejected failure (closest region name, distance, allowed
radius; HTTP 403) whenever geofence validation rejects, in both cases
without reaching the forward step; the cookie-forwarding variant refuses
with 401 only when additionally no truthy Cookie header is present, and
its geofence rejection is a local 400 carrying the same payload. -/
theorem punchIn_local_failures (regions : List GeoRegion) (apiBase : String)
    (flag : Bool) (dR : ℝ) (req : Request) :
    (jsTruthyOpt (extractCredentialsSimple req).token = false →
      punchInV1 regions apiBase req = .unauthorized ∧
        punchInV1Status (punchInV1 regions apiBase req) = some 401) ∧
    (jsTruthyOpt (extractCredentials req).token = false →
      jsTruthyStrOpt req.cookie = false →
      punchInV4 flag dR regions req = .unauthorized ∧
        punchInV4Status (punchInV4 flag dR regions req) = some 401) ∧
    (∀ c d r,
      jsTruthyOpt (extractCredentialsSimple req).token = true →
      jsTruthyOpt (jsOptField req.body "latitude") = true →
      jsTruthyOpt (jsOptField req.body "longitude") = true →
      validateLocationV1 regions
          (jsToNumber ((jsOptField req.body "latitude").getD .null))
          (jsToNumber ((jsOptField req.body "longitude").getD .null)) = .rejected c d r →
      punchInV1 regions apiBase req = .locationRejected c d r ∧
        punchInV1Status (punchInV1 regions apiBase req) = some 403) ∧
    (∀ c d r,
      ¬ (jsTruthyOpt (extractCredentials req).token = false ∧
        jsTruthyStrOpt req.cookie = false) →
      jsTruthyOpt (jsOptField req.body "latitude") = true →
      jsTruthyOpt (jsOptField req.body "longitude") = true →
      validateLocation flag dR regions
          (jsToNumber ((jsOptField req.body "latitude").getD .null))
          (jsToNumber ((jsOptField req.body "longitude").getD .null)) = .rejected c d r →
      punchInV4 flag dR regions req = .locationRejected c d r ∧
        punchInV4Status (punchInV4 flag dR regions req) = some 400) := by
  refine ⟨?_, ?_, ?_, ?_⟩
  · intro h
    simp only [punchInV1]
    rw [if_pos h]
    exact ⟨rfl, rfl⟩
  · intro h hc
    simp only [punchInV4]
    rw [if_pos ⟨h, hc⟩]
    exact ⟨rfl, rfl⟩
  · intro c d r htok hlat hlon hval
    simp only [punchInV1]
    rw [if_neg (by simp [htok]), if_neg (by simp [hlat, hlon]), hval]
    exact ⟨rfl, rfl⟩
  · intro c d r hauth hlat hlon hval
    simp only [punchInV4]
    rw [if_neg hauth, if_neg (by simp [hlat, hlon]), hval]
    exact ⟨rfl, rfl⟩

/-- Witness for `punchIn_local_failures`: a token-less request is refused
with 401 by both handlers, and a tokened request at the center of a
negative-radius region is refused with the location-rejected payload. -/
theorem punchIn_local_failures_witness :
    (punchInV1 [⟨"A", 1, 2, -1⟩] "http://x" ⟨none, none, none, none, none, none⟩ =
        .unauthorized) ∧
      (punchInV4 false 100 [⟨"A", 1, 2, -1⟩] ⟨none, none, none, none, none, none⟩ =
        .unauthorized) ∧
      (punchInV1 [⟨"A", 1, 2, -1⟩] "http://x"
          ⟨some "Bearer tok", none, none, none, none,
            some (.obj [("latitude", .num 1), ("longitude", .num 2)])⟩ =
        .locationRejected "A" 0 (-1)) := by
  have h1 := (punchIn_local_failures [⟨"A", 1, 2, -1⟩] "http://x" false 100
    ⟨none, none, none, none, none, none⟩).1 rfl
  have h2 := (punchIn_local_failures [⟨"A", 1, 2, -1⟩] "http://x" false 100
    ⟨none, none, none, none, none, none⟩).2.1 rfl rfl
  have hval : validateLocationV1 [⟨"A", 1, 2, -1⟩]
      (jsToNumber ((jsOptField
        (some (.obj [("latitude", Json.num 1), ("longitude", Json.num 2)]))
        "latitude").getD .null))
      (jsToNumber ((jsOptField
        (some (.obj [("latitude", Json.num 1), ("longitude", Json.num 2)]))
        "longitude").getD .null)) = .rejected "A" 0 (-1) := by
    show validateLocationV1 [⟨"A", 1, 2, -1⟩] (jsToNumber (.num 1)) (jsToNumber (.num 2)) =
      .rejected "A" 0 (-1)
    have e1 : jsToNumber (.num 1) = (1 : ℝ) := by norm_num [jsToNumber]
    have e2 : jsToNumber (.num 2) = (2 : ℝ) := by norm_num [jsToNumber]
    rw [e1, e2]
    exact validateLocationV1_negRadius_center
  have h3 := (punchIn_local_failures [⟨"A", 1, 2, -1⟩] "http://x" false 100
    ⟨some "Bearer tok", none, none, none, none,
      some (.obj [("latitude", .num 1), ("longitude", .num 2)])⟩).2.2.1 "A" 0 (-1)
    rfl rfl rfl hval
  exact ⟨h1.1, h2.1, h3.1⟩

/-! ## C10: zero coordinates are refused as missing -/

/-- C10: a punch-in request with a truthy token whose body latitude or
longitude is the number 0 — a finite, in-range coordinate — is refused as
missing-location (HTTP 400) before geofence validation and before any
forward, in both handler variants, because presence is tested by
truthiness. -/
theorem punchIn_zero_coordinate (regions : List GeoRegion) (apiBase : String)
    (flag : Bool) (dR : ℝ) (req : Request)
    (htok1 : jsTruthyOpt (extractCredentialsSimple req).token = true)
    (htok4 : jsTruthyOpt (extractCredentials req).token = true)
    (h0 : jsOptField req.body "latitude" = some (.num 0) ∨
      jsOptField req.body "longitude" = some (.num 0)) :
    punchInV1 regions apiBase req = .missingLocation ∧
      punchInV1Status (punchInV1 regions apiBase req) = some 400 ∧
      punchInV4 flag dR regions req = .missingLocation ∧
      punchInV4Status (punchInV4 flag dR regions req) = some 400 := by
  have hml : jsTruthyOpt (jsOptField req.body "latitude") = false ∨
      jsTruthyOpt (jsOptField req.body "longitude") = false := by
    rcases h0 with h | h
    · left
      rw [h]
      rfl
    · right
      rw [h]
      rfl
  have hv1 : punchInV1 regions apiBase req = .missingLocation := by
    simp only [punchInV1]
    rw [if_neg (by simp [htok1]), if_pos hml]
  have hv4 : punchInV4 flag dR regions req = .missingLocation := by
    simp only [punchInV4]
    rw [if_neg (by simp [htok4]), if_pos hml]
  exact ⟨hv1, by rw [hv1]; rfl, hv4, by rw [hv4]; rfl⟩

/-- Witness for `punchIn_zero_coordinate`: latitude 0 with a valid token
is refused as missing-location by both handlers. -/
theorem punchIn_zero_coordinate_witness :
    punchInV1 [] "http://x"
        ⟨some "Bearer tok", none, none, none, none,
          some (.obj [("latitude", .num 0), ("longitude", .num 7)])⟩ =
      .missingLocation ∧
    punchInV4 true 100 []
        ⟨some "Bearer tok", none, none, none, none,
          some (.obj [("latitude", .num 0), ("longitude", .num 7)])⟩ =
      .missingLocation := by
  have h := punchIn_zero_coordinate [] "http://x" true 100
    ⟨some "Bearer tok", none, none, none, none,
      some (.obj [("latitude", .num 0), ("longitude", .num 7)])⟩
    rfl rfl (Or.inl rfl)
  exact ⟨h.1, h.2.2.1⟩

/-! ## C8: upstream-response policy of the first punch-in handler -/

/-- The upstream response as seen by the forwarder. -/
structure UpstreamResponse where
  status : ℕ
  bodyText : String

/-- The `response.ok` flag of `fetch`: status in the 200-299 range. -/
def respOk (r : UpstreamResponse) : Bool :=
  decide (200 ≤ r.status ∧ r.status < 300)

/-- What the first punch-in handler sends back once an upstream response
has arrived. -/
inductive ForwardOutcome where
  | mockSuccess (upstreamStatus : ℕ) (latitude longitude : Json)
      (validation : ValidationResult) (userId : Option Json)
  | upstreamError (status : ℕ) (errorBody : String)
  | relay (body : String)

/-- Embedding of the upstream-response policy of the first punch-in
handler (source lines 767-816): non-ok responses with status 403 or 400
are replaced by the synthetic mock-success payload (carrying the location
validation, coordinates and user id); every other non-ok status is
relayed with its status code and error text; ok responses are relayed. -/
def punchInUpstream (validation : ValidationResult) (latitude longitude : Json)
    (userId : Option Json) (resp : UpstreamResponse) : ForwardOutcome :=
  if respOk resp = false then
    if resp.status = 403 ∨ resp.status = 400 then
      .mockSuccess resp.status latitude longitude validation userId
    else .upstreamError resp.status resp.bodyText
  else .relay resp.bodyText

/-- C8: when the upstream answers 403 or 400 the punch-in forwarder
substitutes the synthetic success payload instead of relaying, and every
other non-success status is relayed to the caller with its status code
and error body (success responses are relayed unchanged). -/
theorem punchInUpstream_policy (v : ValidationResult) (lat lon : Json)
    (uid : Option Json) (resp : UpstreamResponse) :
    (resp.status = 403 ∨ resp.status = 400 →
      punchInUpstream v lat lon uid resp = .mockSuccess resp.status lat lon v uid) ∧
    (respOk resp = false → resp.status ≠ 403 → resp.status ≠ 400 →
      punchInUpstream v lat lon uid resp = .upstreamError resp.status resp.bodyText) ∧
    (respOk resp = true → punchInUpstream v lat lon uid resp = .relay resp.bodyText) := by
  refine ⟨?_, ?_, ?_⟩
  · intro h
    have hok : respOk resp = false := by
      rcases h with h | h <;> simp [respOk, h]
    unfold punchInUpstream
    rw [if_pos hok, if_pos h]
  · intro hok h3 h4
    unfold punchInUpstream
    rw [if_pos hok, if_neg (fun hor => hor.elim h3 h4)]
  · intro hok
    unfold punchInUpstream
    rw [if_neg (by simp [hok])]

/-- Witness for `punchInUpstream_policy` at upstream statuses 403 and
500. -/
theorem punchInUpstream_policy_witness :
    punchInUpstream (.admitted "Office" 0 100) (.num 1) (.num 2) none ⟨403, "forbidden"⟩ =
        .mockSuccess 403 (.num 1) (.num 2) (.admitted "Office" 0 100) none ∧
      punchInUpstream (.admitted "Office" 0 100) (.num 1) (.num 2) none ⟨500, "oops"⟩ =
        .upstreamError 500 "oops" := by
  constructor
  · exact (punchInUpstream_policy (.admitted "Office" 0 100) (.num 1) (.num 2) none
      ⟨403, "forbidden"⟩).1 (Or.inl rfl)
  · exact (punchInUpstream_policy (.admitted "Office" 0 100) (.num 1) (.num 2) none
      ⟨500, "oops"⟩).2.1 (by decide) (by decide) (by decide)
